import Mathlib

/-!
Verification development for the Twilio WhatsApp API service (src/main.py).

The development shallowly embeds the request-validation, parameter-translation
and error-envelope logic of main.py:

* Python string primitives used by the validators (strip, isdigit, lower) are
  modelled on `List Char` for the ASCII inputs the service handles.
* `urllib.parse.urlparse` is modelled by `urlparse` below, following the
  CPython algorithm (scheme detection, netloc splitting with the bracket
  check, fragment, query and params splitting).  The control-character
  bleaching CPython applies before splitting is omitted: no input considered
  here contains such characters.
* The pydantic model `WhatsAppMessage` and its three field validators are
  embedded as `Except`-returning functions; model validation runs the field
  validators independently and collects every field error, as pydantic does.
* Python module-level names are modelled as `Option` bindings: `none` means
  the name is never assigned at module level, so a bare reference raises
  NameError at call time.  main.py checks the environment variables
  TWILIO_ACCOUNT_SID and TWILIO_WHATSAPP_NUMBER via os.getenv (lines 40-49)
  but never assigns module-level variables of those names, while lines 171,
  216, 221 and 223 reference them as bare globals.
* The two endpoint handlers are embedded with the external Twilio SDK calls
  (messages.create, accounts fetch) abstracted as function parameters, and
  each handler also returns the list of SDK calls it performed.
-/

/-- Characters treated as whitespace by Python str.strip for ASCII input. -/
def pyIsSpace (c : Char) : Bool :=
  c == ' ' || c == '\t' || c == '\n' || c == '\r' || c == '\x0b' || c == '\x0c'

/-- Python str.strip: drop leading and trailing whitespace. -/
def pyStripList (l : List Char) : List Char :=
  ((l.dropWhile pyIsSpace).reverse.dropWhile pyIsSpace).reverse

/-- Python v.strip() on strings. -/
def pyStrip (s : String) : String :=
  String.mk (pyStripList s.data)

/-- Python str.isdigit for ASCII input: nonempty and all digits.
Python returns False on the empty string. -/
def pyIsdigit (l : List Char) : Bool :=
  !l.isEmpty && l.all Char.isDigit

/-- Python str.lower for ASCII input. -/
def pyLower (l : List Char) : List Char :=
  l.map Char.toLower

/-- Split a character list at the first occurrence of a separator, the
separator excluded; none when the separator does not occur. -/
def splitAtFirst (sep : Char) : List Char → Option (List Char × List Char)
  | [] => none
  | c :: rest =>
      if c == sep then some ([], rest)
      else
        match splitAtFirst sep rest with
        | none => none
        | some (a, b) => some (c :: a, b)

/-- Characters CPython allows in a URL scheme after the first letter. -/
def scheme_chars (c : Char) : Bool :=
  c.isAlpha || c.isDigit || c == '+' || c == '-' || c == '.'

/-- A character that terminates the netloc portion of a URL. -/
def netlocDelim (c : Char) : Bool :=
  c == '/' || c == '?' || c == '#'

/-- Result of urllib.parse.urlparse: the six named components. -/
structure UrlParts where
  scheme : List Char
  netloc : List Char
  path : List Char
  params : List Char
  query : List Char
  fragment : List Char

/-- CPython urllib.parse.urlsplit: extract scheme (lowercased, only when the
text before the first colon is nonempty, starts with a letter and consists of
scheme characters), then the netloc after a leading double slash (raising
ValueError on an unbalanced square bracket, as CPython does for IPv6
authorities), then the fragment after the first hash sign, then the query
after the first question mark. -/
def urlsplit (url : List Char) : Except String UrlParts :=
  match
    (match splitAtFirst ':' url with
     | some (before, after) =>
         if !before.isEmpty && (before.headD '0').isAlpha && before.all scheme_chars
         then (before.map Char.toLower, after)
         else ([], url)
     | none => ([], url)) with
  | (scheme, rest) =>
    if ['/', '/'].isPrefixOf rest then
      match ((rest.drop 2).takeWhile (fun c => !netlocDelim c),
             (rest.drop 2).dropWhile (fun c => !netlocDelim c)) with
      | (netloc, rest2) =>
        if (netloc.contains '[' && !netloc.contains ']')
            || (netloc.contains ']' && !netloc.contains '[') then
          .error "Invalid IPv6 URL"
        else
          match (match splitAtFirst '#' rest2 with
                 | some (a, b) => (a, b)
                 | none => (rest2, [])) with
          | (rest3, fragment) =>
            match (match splitAtFirst '?' rest3 with
                   | some (a, b) => (a, b)
                   | none => (rest3, [])) with
            | (path, query) =>
              .ok { scheme := scheme, netloc := netloc, path := path,
                    params := [], query := query, fragment := fragment }
    else
      match (match splitAtFirst '#' rest with
             | some (a, b) => (a, b)
             | none => (rest, [])) with
      | (rest3, fragment) =>
        match (match splitAtFirst '?' rest3 with
               | some (a, b) => (a, b)
               | none => (rest3, [])) with
        | (path, query) =>
          .ok { scheme := scheme, netloc := [], path := path,
                params := [], query := query, fragment := fragment }

/-- CPython urllib.parse._splitparams: split the parameters after the first
semicolon of the last path segment (after the last slash when one occurs). -/
def splitParams (p : List Char) : List Char × List Char :=
  match ((p.reverse.takeWhile (fun c => !(c == '/'))).reverse) with
  | lastSeg =>
    if p.contains '/' then
      match splitAtFirst ';' lastSeg with
      | some (a, b) => (p.take (p.length - lastSeg.length) ++ a, b)
      | none => (p, [])
    else
      match splitAtFirst ';' p with
      | some (a, b) => (a, b)
      | none => (p, [])

/-- CPython urllib.parse.urlparse: urlsplit, then params split off the path
when the path contains a semicolon. -/
def urlparse (url : List Char) : Except String UrlParts :=
  match urlsplit url with
  | .error e => .error e
  | .ok u =>
      if u.path.contains ';' then
        match splitParams u.path with
        | (pth, prm) => .ok { u with path := pth, params := prm }
      else .ok u

/-- The allowed media file extensions (main.py line 105). -/
def allowed_extensions : List String :=
  [".png", ".jpg", ".jpeg", ".pdf", ".doc", ".docx"]

/-- Field validator for the to field (main.py lines 62-80).  The value
v.data.drop 9 is phone_number, the text after the 9-character whatsapp: tag,
so it still carries the leading plus sign. -/
def validate_whatsapp_number (v : String) : Except String String :=
  if !("whatsapp:+".data.isPrefixOf v.data) then
    .error "Number must be in format whatsapp:+1234567890"
  else if !(['+'].isPrefixOf (v.data.drop 9)) then
    .error "Phone number must start with a plus sign"
  else if !(pyIsdigit ((v.data.drop 9).drop 1)) then
    .error "Phone number must contain only digits after the plus sign"
  else if (v.data.drop 9).length < 10 ∨ (v.data.drop 9).length > 20 then
    .error "Invalid phone number length"
  else .ok v

/-- Field validator for the body field (main.py lines 82-90): reject when the
raw string is empty or strips to empty, reject when the raw length exceeds
1600, otherwise return the stripped string. -/
def validate_body (v : String) : Except String String :=
  if v = "" ∨ pyStrip v = "" then
    .error "Message body cannot be empty"
  else if v.length > 1600 then
    .error "Message too long (max 1600 characters)"
  else .ok (pyStrip v)

/-- Field validator for the media_url field (main.py lines 92-115).  The
whole body runs inside a try/except that rewraps any ValueError, including
one raised by urlparse itself, so a parse failure is a rejection.  Note the
extension test applies str.endswith to the full lowercased URL string, not to
the parsed path. -/
def validate_media_url : Option String → Except String (Option String)
  | none => .ok none
  | some s =>
    match urlparse s.data with
    | .error e => .error ("Invalid media URL: " ++ e)
    | .ok r =>
      if r.scheme.isEmpty || r.netloc.isEmpty then
        .error "Invalid media URL: Invalid URL format"
      else if !(allowed_extensions.any fun ext =>
          ext.data.isSuffixOf (pyLower s.data)) then
        .error "Invalid media URL: Unsupported file type"
      else if s.length > 2000 then
        .error "Invalid media URL: URL is too long"
      else .ok (some s)

/-- The validated pydantic model (main.py lines 56-60). -/
structure WhatsAppMessage where
  «to» : String
  body : String
  media_url : Option String

/-- Run a field validator on a required field; a missing field is the
pydantic error Field required. -/
def requiredField (v : Option String) (f : String → Except String String) :
    Except String String :=
  match v with
  | none => .error "Field required"
  | some s => f s

/-- The field errors contributed by one field outcome, tagged with the field
name as pydantic reports it in the error location. -/
def fieldErrs {α : Type} (name : String) : Except String α → List (String × String)
  | .error e => [(name, e)]
  | .ok _ => []

/-- Pydantic validation of the WhatsAppMessage model: every field validator
runs independently and all field errors are collected; the model is produced
only when all three fields validate.  to and body are required, media_url
defaults to None. -/
def validateMessage («to» body media_url : Option String) :
    Except (List (String × String)) WhatsAppMessage :=
  match requiredField «to» validate_whatsapp_number,
        requiredField body validate_body,
        validate_media_url media_url with
  | .ok t, .ok b, .ok m => .ok { «to» := t, body := b, media_url := m }
  | rTo, rBody, rMedia =>
      .error (fieldErrs "to" rTo ++ fieldErrs "body" rBody
        ++ fieldErrs "media_url" rMedia)

/-- Binding of the module-level name TWILIO_WHATSAPP_NUMBER in main.py.
The module checks the environment variable exists (lines 40-43) and reads it
with os.getenv when constructing the Twilio client (line 47), but it never
assigns a module-level variable named TWILIO_WHATSAPP_NUMBER, so the bare
references at lines 171, 221 and 223 raise NameError when the handlers run.
An unbound name is modelled as none. -/
def TWILIO_WHATSAPP_NUMBER_binding : Option String := none

/-- Binding of the module-level name TWILIO_ACCOUNT_SID in main.py: checked
via os.getenv (lines 40-47) but never assigned as a module global, so the
bare reference at line 216 raises NameError.  Modelled as none. -/
def TWILIO_ACCOUNT_SID_binding : Option String := none

/-- The str() of the NameError raised by a bare TWILIO_WHATSAPP_NUMBER
reference (Python quotes the name in the message; the quotes are elided). -/
def nameErrorWhatsAppNumber : String :=
  "name TWILIO_WHATSAPP_NUMBER is not defined"

/-- The str() of the NameError raised by a bare TWILIO_ACCOUNT_SID
reference (Python quotes the name in the message; the quotes are elided). -/
def nameErrorAccountSid : String :=
  "name TWILIO_ACCOUNT_SID is not defined"

/-- The keyword arguments passed to client.messages.create (main.py lines
170-178); media_url is absent from the dict unless message.media_url is
truthy, in which case it is the singleton list. -/
structure MessageParams where
  from_ : String
  «to» : String
  body : String
  media_url : Option (List String)

/-- The message_params dict built at main.py lines 170-178 from a validated
message, given the value bound to TWILIO_WHATSAPP_NUMBER. -/
def buildParams (waNumber : String) (m : WhatsAppMessage) : MessageParams :=
  { from_ := "whatsapp:" ++ waNumber
    «to» := m.«to»
    body := m.body
    media_url :=
      match m.media_url with
      | some u => if u = "" then none else some [u]
      | none => none }

/-- The fields of the provider message object returned by
client.messages.create that the handler reads back. -/
structure TwilioMessage where
  sid : String
  «to» : String
  body : String
  num_media : String

/-- Outcome of the send handler body: the success dict (main.py lines
185-191) or the HTTPException raised at lines 195-201 with status 400,
detail.error and detail.details. -/
inductive SendResult where
  | success (message_sid : String) («to» : String) (body : String)
      (num_media : String)
  | httpError (statusCode : Nat) (error : String) (details : String)

/-- The send_whatsapp_message handler body (main.py lines 157-201), after
pydantic validation has produced the message.  waBinding is the module-level
binding of TWILIO_WHATSAPP_NUMBER and create abstracts
client.messages.create.  The whole body runs inside try/except, so when the
name is unbound the NameError raised while building message_params is caught
at line 193 and becomes the HTTPException, before any provider call.  The
second component lists the provider calls performed. -/
def send_whatsapp_message (waBinding : Option String)
    (create : MessageParams → Except String TwilioMessage)
    (m : WhatsAppMessage) : SendResult × List MessageParams :=
  match waBinding with
  | none => (.httpError 400 "Failed to send message" nameErrorWhatsAppNumber, [])
  | some waNumber =>
    match buildParams waNumber m with
    | params =>
      match create params with
      | .ok tm => (.success tm.sid tm.«to» tm.body tm.num_media, [params])
      | .error e => (.httpError 400 "Failed to send message" e, [params])

/-- The fields of the provider account object read by verify_config. -/
structure Account where
  sid : String
  status : String

/-- Outcome of the verify_config handler: the success dict (main.py lines
218-225) or the HTTPException raised at lines 228-235 with status 500 and
detail fields status, error and details. -/
inductive VerifyResult where
  | success (twilio_account_sid : String) (twilio_number_configured : Bool)
      (twilio_auth_working : Bool) (whatsapp_number : String)
      (account_status : String)
  | httpError (statusCode : Nat) (statusField : String) (error : String)
      (details : String)

/-- The verify_config handler (main.py lines 204-235).  sidBinding and
waBinding are the module-level bindings of TWILIO_ACCOUNT_SID and
TWILIO_WHATSAPP_NUMBER; fetch abstracts client.api.accounts(sid).fetch().
The body runs inside try/except: with TWILIO_ACCOUNT_SID unbound the
NameError at line 216 is caught before fetch is ever called; with it bound,
a fetch failure or the NameError from TWILIO_WHATSAPP_NUMBER in the success
dict is caught likewise.  The second component lists the account sids
fetched. -/
def verify_config (sidBinding waBinding : Option String)
    (fetch : String → Except String Account) : VerifyResult × List String :=
  match sidBinding with
  | none =>
      (.httpError 500 "error" "Configuration verification failed"
        nameErrorAccountSid, [])
  | some sid =>
    match fetch sid with
    | .error e =>
        (.httpError 500 "error" "Configuration verification failed" e, [sid])
    | .ok account =>
      match waBinding with
      | none =>
          (.httpError 500 "error" "Configuration verification failed"
            nameErrorWhatsAppNumber, [sid])
      | some n =>
          (.success account.sid (n != "") true n account.status, [sid])

/-- An incoming POST request to /send-whatsapp/ as the service sees it:
the raw body bytes, whether request.json() succeeds on them (json.loads
fails on an empty string as well as on malformed text), and the three
fields of the parsed JSON object when present. -/
structure RawRequest where
  rawBody : String
  parseOk : Bool
  «to» : Option String
  body : Option String
  media_url : Option String

/-- Outcome of one POST /send-whatsapp/ request: the middleware 400 response
(main.py lines 145-148), the 422 validation outcome, or the handler result. -/
inductive ReqOutcome where
  | middleware400 (detail : String)
  | unprocessable (errors : List (String × String))
  | handled (r : SendResult)

/-- The request pipeline for POST /send-whatsapp/: the validate_request
middleware (main.py lines 134-155) returns the 400 response only when the
raw body is nonempty and request.json() fails; otherwise FastAPI validates
the body against WhatsAppMessage, a validation failure is rendered as 422,
and a validated message reaches send_whatsapp_message.  The second
component lists the provider create calls performed. -/
def handleSendRequest (req : RawRequest) (waBinding : Option String)
    (create : MessageParams → Except String TwilioMessage) :
    ReqOutcome × List MessageParams :=
  if req.rawBody ≠ "" ∧ req.parseOk = false then
    (.middleware400 "Invalid JSON format in request body", [])
  else
    match validateMessage req.«to» req.body req.media_url with
    | .error errs => (.unprocessable errs, [])
    | .ok m =>
      match send_whatsapp_message waBinding create m with
      | (r, calls) => (.handled r, calls)

/-- A JSON value, used to state the exact shape of the response bodies. -/
inductive JsonVal where
  | str (s : String)
  | num (n : Int)
  | bool (b : Bool)
  | arr (items : List JsonVal)
  | obj (fields : List (String × JsonVal))

/-- Look up a top-level key of a JSON object; none when the key is absent or
the value is not an object. -/
def jlookup (k : String) : JsonVal → Option JsonVal
  | .obj fields => fields.lookup k
  | _ => none

/-- The 422 response that validation_exception_handler (main.py lines
237-255) would build: detail, the per-field errors, error_type
validation_error and the static help object.  This handler is registered
for pydantic.ValidationError (line 237), but FastAPI reports request-body
validation failures by raising fastapi.exceptions.RequestValidationError,
which under the pydantic-v2 stack these imports require is not a
pydantic.ValidationError; the handler therefore never fires for request
validation and this envelope is dead code on the send path. -/
def validationErrorResponse (errors : List (String × String)) :
    Nat × JsonVal :=
  (422, .obj
    [ ("detail", .str "Validation failed")
    , ("errors", .arr (errors.map fun fe =>
        .obj [ ("loc", .arr [.str "body", .str fe.1])
             , ("msg", .str fe.2) ]))
    , ("error_type", .str "validation_error")
    , ("help", .obj
        [ ("phone_format",
            .str "Phone number must be in format whatsapp:+1234567890")
        , ("body_length", .str "Message body must be 1-1600 characters")
        , ("example", .obj
            [ ("to", .str "whatsapp:+1234567890")
            , ("body", .str "Hello! This is a test message.") ]) ]) ])

/-- The 422 response FastAPI actually returns for a request-body
validation failure: its default RequestValidationError handler answers
with status 422 and a body whose only key is detail, holding the list of
per-field errors.  No error_type and no help field. -/
def requestValidationResponse (errors : List (String × String)) :
    Nat × JsonVal :=
  (422, .obj
    [ ("detail", .arr (errors.map fun fe =>
        .obj [ ("loc", .arr [.str "body", .str fe.1])
             , ("msg", .str fe.2) ])) ])

/-- The response built by http_exception_handler (main.py lines 257-265):
the exception status code with detail and error_type api_error. -/
def httpExceptionResponse (statusCode : Nat) (detail : JsonVal) :
    Nat × JsonVal :=
  (statusCode, .obj [("detail", detail), ("error_type", .str "api_error")])

/-- The detail dict of the HTTPException raised on the send path (main.py
lines 195-201). -/
def sendErrorDetail (error details : String) : JsonVal :=
  .obj [("error", .str error), ("details", .str details)]

/-- The HTTP response rendered for each pipeline outcome: the middleware
constructs its JSONResponse directly (main.py lines 145-148, detail only,
no error_type); request-validation failures are rendered by FastAPI's
default RequestValidationError handler (the custom handler at lines
237-255 listens for pydantic.ValidationError and never fires for request
validation); handler HTTPExceptions go through http_exception_handler;
the success dict is returned with status 200. -/
def responseOf : ReqOutcome → Nat × JsonVal
  | .middleware400 d => (400, .obj [("detail", .str d)])
  | .unprocessable errs => requestValidationResponse errs
  | .handled (.httpError sc err det) =>
      httpExceptionResponse sc (sendErrorDetail err det)
  | .handled (.success sid t b nm) =>
      (200, .obj
        [ ("status", .str "success"), ("message_sid", .str sid)
        , ("to", .str t), ("body", .str b), ("num_media", .str nm) ])

/-- An outcome that is a failure (anything but the handler success dict). -/
def isFailureOutcome : ReqOutcome → Bool
  | .handled (.success _ _ _ _) => false
  | _ => true

/-- True when an Except is a success. -/
def isOk {ε α : Type} : Except ε α → Bool
  | .ok _ => true
  | .error _ => false

/-- The acceptance predicate for the to field exactly as the claim states
it: the literal whatsapp:+ tag, only digits after the plus sign, and a
digit count between 10 and 15 inclusive. -/
def claimValidTo (v : String) : Bool :=
  "whatsapp:+".data.isPrefixOf v.data
    && (v.data.drop 10).all Char.isDigit
    && decide (10 ≤ (v.data.drop 10).length)
    && decide ((v.data.drop 10).length ≤ 15)

/-- The acceptance predicate for the to field that the code implements: the
length bound at main.py line 77 is on phone_number, which includes the plus
sign, so the digit count after the plus sign ranges over 9 to 19. -/
def amendedValidTo (v : String) : Bool :=
  "whatsapp:+".data.isPrefixOf v.data
    && (v.data.drop 10).all Char.isDigit
    && decide (9 ≤ (v.data.drop 10).length)
    && decide ((v.data.drop 10).length ≤ 19)

/-- The acceptance predicate for a supplied media URL exactly as the claim
states it: parses with scheme and host, length at most 2000, and the
lowercased PATH ends with an allowed extension. -/
def claimValidMedia (s : String) : Bool :=
  match urlparse s.data with
  | .error _ => false
  | .ok r =>
      !r.scheme.isEmpty && !r.netloc.isEmpty
        && decide (s.length ≤ 2000)
        && allowed_extensions.any
            (fun ext => ext.data.isSuffixOf (pyLower r.path))

/-- The acceptance predicate for a supplied media URL that the code
implements: identical to the claim except that the extension test applies
to the entire lowercased URL string (main.py line 106), not to the parsed
path, and a URL urlparse raises on is rejected. -/
def amendedValidMedia (s : String) : Bool :=
  match urlparse s.data with
  | .error _ => false
  | .ok r =>
      !r.scheme.isEmpty && !r.netloc.isEmpty
        && decide (s.length ≤ 2000)
        && allowed_extensions.any
            (fun ext => ext.data.isSuffixOf (pyLower s.data))

/-- Final byte of an ANSI CSI escape sequence. -/
def isCsiFinal (c : Char) : Bool :=
  decide (0x40 ≤ c.toNat) && decide (c.toNat ≤ 0x7e)

/-- Modelled from the spec: strip ANSI escape sequences (ESC followed by a
bracketed CSI sequence, skipped up to and including its final byte) from a
provider error message, as section 4.3 of the spec describes for the
gateway error cleaning that src/main.py does not contain.  The flag is true
while inside a CSI sequence. -/
def stripAnsiAux : Bool → List Char → List Char
  | _, [] => []
  | true, c :: rest =>
      if isCsiFinal c then stripAnsiAux false rest else stripAnsiAux true rest
  | false, '\x1b' :: '[' :: rest2 => stripAnsiAux true rest2
  | false, '\x1b' :: rest => stripAnsiAux false rest
  | false, c :: rest => c :: stripAnsiAux false rest

/-- Strip ANSI escape sequences from a message. -/
def stripAnsi (l : List Char) : List Char :=
  stripAnsiAux false l

/-- Modelled from the spec: strip remaining control characters from a
provider error message. -/
def stripCtl (l : List Char) : List Char :=
  l.filter (fun c => decide (0x20 ≤ c.toNat))

/-- The suffix of the list after the first occurrence of a pattern; none
when the pattern does not occur. -/
def findAfter (pat : List Char) : List Char → Option (List Char)
  | [] => if pat.isPrefixOf ([] : List Char) then some [] else none
  | c :: rest =>
      if pat.isPrefixOf (c :: rest) then some ((c :: rest).drop pat.length)
      else findAfter pat rest

/-- Modelled from the spec (sections 4.3 and 8): the cleaned provider error
message the spec promises — control characters and ANSI escapes stripped,
and when the result contains the provider envelope pattern
Unable to create record: reason, exactly the embedded reason returned.
src/main.py lines 193-201 contain no such cleaning. -/
def specCleanMessage (raw : String) : String :=
  match findAfter "Unable to create record: ".data
      (stripCtl (stripAnsi raw.data)) with
  | some r => String.mk r
  | none => String.mk (stripCtl (stripAnsi raw.data))

/-- The envelope shape the claim asserts for every failure response: a
detail field plus an error_type field that is api_error or
validation_error. -/
def claimEnvelopeOk (resp : Nat × JsonVal) : Bool :=
  (jlookup "detail" resp.2).isSome
    && (match jlookup "error_type" resp.2 with
        | some (.str s) => s == "api_error" || s == "validation_error"
        | _ => false)


theorem isOk_validate_whatsapp_number (v : String) :
    isOk (validate_whatsapp_number v) = amendedValidTo v := by
  by_cases hp : ("whatsapp:+".data.isPrefixOf v.data) = true
  · obtain ⟨t, ht⟩ := List.isPrefixOf_iff_prefix.mp hp
    unfold validate_whatsapp_number amendedValidTo
    rw [← ht]
    have h1 : ("whatsapp:+".data.isPrefixOf ("whatsapp:+".data ++ t)) = true :=
      List.isPrefixOf_iff_prefix.mpr (List.prefix_append _ _)
    have h9 : (("whatsapp:+".data ++ t).drop 9) = '+' :: t := rfl
    have h10 : (("whatsapp:+".data ++ t).drop 10) = t := rfl
    have h2 : (['+'].isPrefixOf ('+' :: t)) = true := by
      simp [List.isPrefixOf]
    rw [h1, h9, h10, h2]
    have hd1 : (('+' :: t).drop 1) = t := rfl
    rw [hd1, List.length_cons]
    simp only [Bool.not_true, Bool.true_and]
    rw [if_neg (by simp), if_neg (by simp)]
    by_cases hd : pyIsdigit t = true
    · have hne : t.isEmpty = false := by
        cases hei : t.isEmpty
        · rfl
        · exfalso
          unfold pyIsdigit at hd
          rw [hei] at hd
          simp at hd
      have hall : t.all Char.isDigit = true := by
        unfold pyIsdigit at hd
        rw [hne] at hd
        simpa using hd
      rw [hd, hall]
      simp only [Bool.not_true, Bool.true_and]
      rw [if_neg (by simp)]
      by_cases hl : t.length + 1 < 10 ∨ t.length + 1 > 20
      · rw [if_pos hl]
        simp only [isOk]
        rw [← Bool.decide_and, eq_comm, decide_eq_false_iff_not]
        omega
      · rw [if_neg hl]
        simp only [isOk]
        rw [← Bool.decide_and, eq_comm, decide_eq_true_eq]
        omega
    · have hd' : pyIsdigit t = false := by
        cases hdc : pyIsdigit t
        · rfl
        · exact absurd hdc hd
      rw [hd']
      rw [if_pos (by simp)]
      cases hei : t.isEmpty
      · have hall : t.all Char.isDigit = false := by
          unfold pyIsdigit at hd'
          rw [hei] at hd'
          simpa using hd'
        rw [hall]
        simp [isOk]
      · have htn : t = [] := by simpa [List.isEmpty_iff] using hei
        subst htn
        simp [isOk]
  · have hp' : ("whatsapp:+".data.isPrefixOf v.data) = false := by
      cases hpc : ("whatsapp:+".data.isPrefixOf v.data)
      · rfl
      · exact absurd hpc hp
    unfold validate_whatsapp_number amendedValidTo
    rw [hp']
    rw [if_pos (by simp)]
    simp [isOk]

theorem isOk_validate_body (v : String) :
    isOk (validate_body v) = (pyStrip v != "" && decide (v.length ≤ 1600)) := by
  unfold validate_body
  by_cases h1 : v = "" ∨ pyStrip v = ""
  · rw [if_pos h1]
    have hps : pyStrip v = "" := by
      rcases h1 with h | h
      · rw [h]
        rfl
      · exact h
    rw [hps]
    simp [isOk]
  · rw [if_neg h1]
    push_neg at h1
    obtain ⟨hv, hps⟩ := h1
    by_cases h2 : v.length > 1600
    · rw [if_pos h2]
      have hn : ¬ (v.length ≤ 1600) := by omega
      simp [isOk, hn]
    · rw [if_neg h2]
      have hle : v.length ≤ 1600 := by omega
      simp [isOk, hps, hle]

theorem validate_body_ok (v r : String) (h : validate_body v = .ok r) :
    r = pyStrip v := by
  unfold validate_body at h
  by_cases h1 : v = "" ∨ pyStrip v = ""
  · rw [if_pos h1] at h
    simp at h
  · rw [if_neg h1] at h
    by_cases h2 : v.length > 1600
    · rw [if_pos h2] at h
      simp at h
    · rw [if_neg h2] at h
      injection h with h
      exact h.symm

theorem isOk_validate_media_url (s : String) :
    isOk (validate_media_url (some s)) = amendedValidMedia s := by
  show isOk
      (match urlparse s.data with
       | .error e => .error ("Invalid media URL: " ++ e)
       | .ok r =>
         if r.scheme.isEmpty || r.netloc.isEmpty then
           .error "Invalid media URL: Invalid URL format"
         else if !(allowed_extensions.any fun ext =>
             ext.data.isSuffixOf (pyLower s.data)) then
           .error "Invalid media URL: Unsupported file type"
         else if s.length > 2000 then
           .error "Invalid media URL: URL is too long"
         else .ok (some s))
    = amendedValidMedia s
  unfold amendedValidMedia
  cases hu : urlparse s.data with
  | error e =>
    rfl
  | ok r =>
    show isOk
        (if r.scheme.isEmpty || r.netloc.isEmpty then
           (.error "Invalid media URL: Invalid URL format" :
             Except String (Option String))
         else if !(allowed_extensions.any fun ext =>
             ext.data.isSuffixOf (pyLower s.data)) then
           .error "Invalid media URL: Unsupported file type"
         else if s.length > 2000 then
           .error "Invalid media URL: URL is too long"
         else .ok (some s))
      = (!r.scheme.isEmpty && !r.netloc.isEmpty && decide (s.length ≤ 2000)
          && allowed_extensions.any fun ext =>
              ext.data.isSuffixOf (pyLower s.data))
    cases hs : r.scheme.isEmpty with
    | true =>
      simp [isOk]
    | false =>
      cases hn : r.netloc.isEmpty with
      | true =>
        simp [isOk]
      | false =>
        cases ha : (allowed_extensions.any fun ext =>
            ext.data.isSuffixOf (pyLower s.data)) with
        | false =>
          simp [isOk]
        | true =>
          by_cases hl : s.length > 2000
          · have h2 : ¬ (s.length ≤ 2000) := by omega
            simp [isOk, hl, h2]
          · have h2 : s.length ≤ 2000 := by omega
            simp [isOk, hl, h2]

theorem validateMessage_error_ne_nil («to» body media : Option String)
    (errs : List (String × String))
    (h : validateMessage «to» body media = .error errs) : errs ≠ [] := by
  unfold validateMessage at h
  cases h1 : requiredField «to» validate_whatsapp_number <;>
    cases h2 : requiredField body validate_body <;>
      cases h3 : validate_media_url media <;>
        rw [h1, h2, h3] at h <;>
          (intro hnil
           rw [hnil] at h
           simp [fieldErrs] at h)

theorem validateMessage_to_error (t : String) (body media : Option String)
    (h : isOk (validate_whatsapp_number t) = false) :
    ∃ errs, validateMessage (some t) body media = .error errs := by
  have he : ∃ e, validate_whatsapp_number t = .error e := by
    cases hv : validate_whatsapp_number t
    · exact ⟨_, rfl⟩
    · rw [hv] at h
      simp [isOk] at h
  obtain ⟨e, he⟩ := he
  have hr : requiredField (some t) validate_whatsapp_number = .error e := he
  unfold validateMessage
  rw [hr]
  cases requiredField body validate_body <;>
    cases validate_media_url media <;> exact ⟨_, rfl⟩

theorem validateMessage_ok_body (t b : String) (media : Option String)
    (m : WhatsAppMessage) (h : validateMessage (some t) (some b) media = .ok m) :
    m.body = pyStrip b := by
  unfold validateMessage at h
  cases h1 : requiredField (some t) validate_whatsapp_number <;>
    cases h2 : requiredField (some b) validate_body <;>
      cases h3 : validate_media_url media <;>
        rw [h1, h2, h3] at h
  all_goals simp at h
  subst h
  exact validate_body_ok b _ h2

/-- C1: for a request that passes validation, main.py is meant to build the
provider parameters from the configured WhatsApp number with no failure
mode; instead, because TWILIO_WHATSAPP_NUMBER is never assigned as a module
global, building message_params raises NameError, the handler returns the
400 HTTPException and no parameters are ever built: the translation step
fails on every validated request. -/
theorem send_translation_raises_name_error :
    ∀ create : MessageParams → Except String TwilioMessage,
      validateMessage (some "whatsapp:+254716160370")
          (some "Hello from Twilio WhatsApp API Test") none
        = .ok { «to» := "whatsapp:+254716160370",
                body := "Hello from Twilio WhatsApp API Test",
                media_url := none }
      ∧ send_whatsapp_message TWILIO_WHATSAPP_NUMBER_binding create
          { «to» := "whatsapp:+254716160370",
            body := "Hello from Twilio WhatsApp API Test", media_url := none }
        = (.httpError 400 "Failed to send message" nameErrorWhatsAppNumber, []) :=
  fun _ => ⟨rfl, rfl⟩

/-- C2 counterexample: the recipient whatsapp:+123456789 has nine digits
after the plus sign and whatsapp:+1234567890123456789 has nineteen; the
claim (10 to 15 digits) rejects both, yet the code accepts both, because
the length bound at main.py line 77 is applied to the string that still
includes the plus sign. -/
theorem nine_digit_recipient_accepted :
    validate_whatsapp_number "whatsapp:+123456789" = .ok "whatsapp:+123456789"
    ∧ claimValidTo "whatsapp:+123456789" = false
    ∧ validate_whatsapp_number "whatsapp:+1234567890123456789"
        = .ok "whatsapp:+1234567890123456789"
    ∧ claimValidTo "whatsapp:+1234567890123456789" = false :=
  ⟨rfl, rfl, rfl, rfl⟩

/-- C2 (amended): validation of the to field succeeds iff the string starts
with whatsapp:+, the remainder after the plus sign is all digits, and the
digit count is between 9 and 19 inclusive; every recipient not of this form
leads to a request with zero provider calls. -/
theorem recipient_validation_characterization :
    (∀ v : String, isOk (validate_whatsapp_number v) = amendedValidTo v)
    ∧ (∀ (req : RawRequest) (wa : Option String)
        (create : MessageParams → Except String TwilioMessage) (t : String),
        req.«to» = some t →
        amendedValidTo t = false →
        (handleSendRequest req wa create).2 = []) := by
  refine ⟨isOk_validate_whatsapp_number, ?_⟩
  intro req wa create t hreq h
  have hto : isOk (validate_whatsapp_number t) = false := by
    rw [isOk_validate_whatsapp_number]
    exact h
  obtain ⟨errs, herrs⟩ := validateMessage_to_error t req.body req.media_url hto
  unfold handleSendRequest
  by_cases hmw : req.rawBody ≠ "" ∧ req.parseOk = false
  · rw [if_pos hmw]
  · rw [if_neg hmw, hreq, herrs]

/-- C2 witness: the characterization evaluated on a concrete recipient, and
a concrete request with an untagged recipient producing no provider call. -/
theorem recipient_validation_witness :
    isOk (validate_whatsapp_number "whatsapp:bad") = amendedValidTo "whatsapp:bad"
    ∧ (handleSendRequest
        { rawBody := "x", parseOk := true, «to» := some "+254716160370",
          body := some "hello", media_url := none } none
        (fun _ => .error "e")).2 = [] :=
  ⟨recipient_validation_characterization.1 "whatsapp:bad",
   recipient_validation_characterization.2
     { rawBody := "x", parseOk := true, «to» := some "+254716160370",
       body := some "hello", media_url := none } none (fun _ => .error "e")
     "+254716160370" rfl (by decide)⟩

/-- C3: a request that passes validation is meant to reach
client.messages.create exactly once; instead the NameError on
TWILIO_WHATSAPP_NUMBER aborts the handler before the call, so the pipeline
performs zero provider calls and returns the 400 error for every validated
request, whatever the provider would do. -/
theorem validated_request_reaches_no_provider_call :
    ∀ create : MessageParams → Except String TwilioMessage,
      isOk (validateMessage (some "whatsapp:+254716160370")
        (some "Hello from Twilio WhatsApp API Test") none) = true
      ∧ handleSendRequest
          { rawBody := "\x7b\"to\": \"whatsapp:+254716160370\", \"body\": \"Hello from Twilio WhatsApp API Test\"\x7d",
            parseOk := true, «to» := some "whatsapp:+254716160370",
            body := some "Hello from Twilio WhatsApp API Test",
            media_url := none }
          TWILIO_WHATSAPP_NUMBER_binding create
        = (.handled (.httpError 400 "Failed to send message"
            nameErrorWhatsAppNumber), []) :=
  fun _ => ⟨rfl, rfl⟩

/-- C4: verify_config is meant to return the success envelope with
auth_working true when the account fetch succeeds; instead the NameError on
TWILIO_ACCOUNT_SID at line 216 is raised before the fetch, so the handler
returns the 500 error envelope and performs no fetch whatever the provider
would answer. -/
theorem verify_config_never_fetches :
    ∀ fetch : String → Except String Account,
      verify_config TWILIO_ACCOUNT_SID_binding TWILIO_WHATSAPP_NUMBER_binding
          fetch
        = (.httpError 500 "error" "Configuration verification failed"
            nameErrorAccountSid, []) :=
  fun _ => rfl

/-- C5: validation of the body field succeeds exactly when the stripped
body is nonempty and the raw length is at most 1600, and the value it
produces is the stripped body. -/
theorem body_validation_contract :
    (∀ v : String,
      isOk (validate_body v) = (pyStrip v != "" && decide (v.length ≤ 1600)))
    ∧ (∀ v r : String, validate_body v = .ok r → r = pyStrip v) :=
  ⟨isOk_validate_body, validate_body_ok⟩

/-- C5 witness: the contract evaluated on a concrete body with surrounding
whitespace. -/
theorem body_validation_witness :
    isOk (validate_body "  hello  ")
      = (pyStrip "  hello  " != ""
          && decide (("  hello  " : String).length ≤ 1600))
    ∧ "hello" = pyStrip "  hello  " :=
  ⟨body_validation_contract.1 "  hello  ",
   body_validation_contract.2 "  hello  " "hello" rfl⟩

/-- C6 counterexample: for the URL https followed by example.com/file.png
with a query, the parsed path ends with the allowed extension png, so the
claim accepts it, yet the code rejects it with the unsupported-file-type
error because str.endswith is applied to the whole URL, whose final
characters are the query string. -/
theorem media_query_url_rejected_path_accepted :
    claimValidMedia "https://example.com/file.png?x=1" = true
    ∧ validate_media_url (some "https://example.com/file.png?x=1")
        = .error "Invalid media URL: Unsupported file type" :=
  ⟨rfl, rfl⟩

/-- C6 (amended): validation of a supplied media URL succeeds iff the URL
parses with nonempty scheme and host, the length is at most 2000, and the
lowercased FULL URL string (not the path) ends with an allowed extension;
an absent media URL is always accepted. -/
theorem media_validation_characterization :
    (∀ s : String, isOk (validate_media_url (some s)) = amendedValidMedia s)
    ∧ validate_media_url none = .ok none :=
  ⟨isOk_validate_media_url, rfl⟩

/-- A raw provider error message carrying ANSI escape codes around the
provider envelope pattern, as Twilio exceptions render them. -/
def rawProviderError : String :=
  "\x1b[31mUnable to create record: The number is unverified\x1b[0m"

/-- C7 counterexample: when the provider fails with a message containing
ANSI escapes and the pattern Unable to create record, the handler returns
the raw message verbatim in the details field; the cleaning the claim
describes would instead return exactly the embedded reason, which differs
from the raw message and contains no escape byte. -/
theorem provider_error_returned_verbatim :
    (send_whatsapp_message (some "+14155238886")
        (fun _ => .error rawProviderError)
        { «to» := "whatsapp:+254716160370", body := "Hi",
          media_url := none }).1
      = .httpError 400 "Failed to send message" rawProviderError
    ∧ specCleanMessage rawProviderError = "The number is unverified"
    ∧ rawProviderError ≠ "The number is unverified"
    ∧ rawProviderError.data.contains '\x1b' = true :=
  ⟨rfl, rfl, by decide, rfl⟩

/-- C7 (amended): on a provider-reported failure the error returned to the
caller carries str(e) completely unmodified in detail.details: no control
characters or ANSI escapes are stripped and no embedded reason is
extracted; the envelope is the api_error HTTPException envelope. -/
theorem provider_error_details_passthrough (wa e : String)
    (m : WhatsAppMessage) :
    (send_whatsapp_message (some wa) (fun _ => .error e) m).1
      = .httpError 400 "Failed to send message" e
    ∧ responseOf (.handled (.httpError 400 "Failed to send message" e))
      = httpExceptionResponse 400 (sendErrorDetail "Failed to send message" e) :=
  ⟨rfl, rfl⟩

/-- C8 counterexample: the empty request body is not parseable as JSON,
yet the middleware only checks nonempty bodies, so the request falls
through to field validation and is answered with the 422 outcome carrying
Field required errors, not the claimed 400 malformed-input response. -/
theorem empty_body_skips_middleware :
    (handleSendRequest
        { rawBody := "", parseOk := false, «to» := none, body := none,
          media_url := none } none (fun _ => .error "x")).1
      = .unprocessable [("to", "Field required"), ("body", "Field required")]
    ∧ (responseOf (handleSendRequest
        { rawBody := "", parseOk := false, «to» := none, body := none,
          media_url := none } none (fun _ => .error "x")).1).1 = 422 :=
  ⟨rfl, rfl⟩

/-- C8 (amended): a request whose body is NONEMPTY and not parseable as
JSON is rejected by the middleware with the distinct 400 malformed-input
response before field validation runs (an empty unparseable body instead
falls through to field validation), while a parseable request violating a
field rule is rejected with 422 carrying a nonempty list of per-field
reasons; the two failure kinds carry different status codes. -/
theorem malformed_and_validation_failures (req : RawRequest)
    (wa : Option String)
    (create : MessageParams → Except String TwilioMessage) :
    (req.rawBody ≠ "" → req.parseOk = false →
      (handleSendRequest req wa create).1
        = .middleware400 "Invalid JSON format in request body"
      ∧ (responseOf (handleSendRequest req wa create).1).1 = 400)
    ∧ (∀ errs, req.parseOk = true →
        validateMessage req.«to» req.body req.media_url = .error errs →
        (handleSendRequest req wa create).1 = .unprocessable errs
        ∧ (responseOf (handleSendRequest req wa create).1).1 = 422
        ∧ errs ≠ []) := by
  constructor
  · intro h1 h2
    unfold handleSendRequest
    rw [if_pos ⟨h1, h2⟩]
    exact ⟨rfl, rfl⟩
  · intro errs hpk hv
    have hmw : ¬ (req.rawBody ≠ "" ∧ req.parseOk = false) := by
      intro hc
      rw [hpk] at hc
      exact absurd hc.2 (by simp)
    unfold handleSendRequest
    rw [if_neg hmw, hv]
    exact ⟨rfl, rfl, validateMessage_error_ne_nil _ _ _ _ hv⟩

/-- C8 witness: a nonempty malformed body answered 400, and a parseable
body with an invalid recipient and empty message answered 422 with both
field errors. -/
theorem malformed_and_validation_witness :
    (handleSendRequest
        { rawBody := "not json", parseOk := false, «to» := none,
          body := none, media_url := none } none (fun _ => .error "x")).1
      = .middleware400 "Invalid JSON format in request body"
    ∧ (handleSendRequest
        { rawBody := "\x7b\x7d", parseOk := true, «to» := some "bad",
          body := some "", media_url := none } none (fun _ => .error "x")).1
      = .unprocessable
          [("to", "Number must be in format whatsapp:+1234567890"),
           ("body", "Message body cannot be empty")] :=
  ⟨((malformed_and_validation_failures
      { rawBody := "not json", parseOk := false, «to» := none,
        body := none, media_url := none } none (fun _ => .error "x")).1
      (by decide) rfl).1,
   ((malformed_and_validation_failures
      { rawBody := "\x7b\x7d", parseOk := true, «to» := some "bad",
        body := some "", media_url := none } none (fun _ => .error "x")).2
      [("to", "Number must be in format whatsapp:+1234567890"),
       ("body", "Message body cannot be empty")] rfl rfl).1⟩

/-- C9 counterexample: the middleware 400 response for a malformed body is
a failure response whose JSON body has no error_type key at all, so the
claimed uniform envelope shape does not hold for it. -/
theorem middleware_response_lacks_error_type :
    isFailureOutcome (.middleware400 "Invalid JSON format in request body")
      = true
    ∧ jlookup "error_type"
        (responseOf (.middleware400 "Invalid JSON format in request body")).2
      = none
    ∧ claimEnvelopeOk
        (responseOf (.middleware400 "Invalid JSON format in request body"))
      = false :=
  ⟨rfl, rfl, rfl⟩

/-- C9 (amended): every failure response carries a detail field and none
is silently swallowed, but the envelope shape is NOT uniform: only the
HTTPException responses carry error_type (with value api_error); the
middleware 400 response and the 422 request-validation responses carry no
error_type field at all, because the handler at main.py lines 237-255
that would attach error_type validation_error is registered for
pydantic.ValidationError, which FastAPI never raises for request
validation, so no response of the program carries validation_error. -/
theorem failure_envelope_shapes (o : ReqOutcome)
    (h : isFailureOutcome o = true) :
    (jlookup "detail" (responseOf o).2).isSome = true
    ∧ (∀ errs, o = .unprocessable errs →
        jlookup "error_type" (responseOf o).2 = none)
    ∧ (∀ sc err det, o = .handled (.httpError sc err det) →
        jlookup "error_type" (responseOf o).2 = some (.str "api_error"))
    ∧ (∀ d, o = .middleware400 d →
        jlookup "error_type" (responseOf o).2 = none)
    ∧ (∀ errs, jlookup "error_type" (validationErrorResponse errs).2
        = some (.str "validation_error")) := by
  cases o with
  | middleware400 d =>
    refine ⟨rfl, ?_, ?_, ?_, ?_⟩
    · intro errs hc
      cases hc
    · intro sc err det hc
      cases hc
    · intro d2 hc
      rfl
    · intro errs
      rfl
  | unprocessable errs =>
    refine ⟨rfl, ?_, ?_, ?_, ?_⟩
    · intro errs2 hc
      rfl
    · intro sc err det hc
      cases hc
    · intro d hc
      cases hc
    · intro errs2
      rfl
  | handled r =>
    cases r with
    | success sid t b nm =>
      simp [isFailureOutcome] at h
    | httpError sc err det =>
      refine ⟨rfl, ?_, ?_, ?_, ?_⟩
      · intro errs hc
        cases hc
      · intro sc2 err2 det2 hc
        rfl
      · intro d hc
        cases hc
      · intro errs
        rfl

/-- C9 witness: the envelope shapes evaluated on a concrete 422 outcome
(detail present, no error_type) and a concrete api_error outcome. -/
theorem failure_envelope_witness :
    isFailureOutcome (.unprocessable [("to", "x")]) = true
    ∧ (jlookup "detail" (responseOf (.unprocessable [("to", "x")])).2).isSome
        = true
    ∧ jlookup "error_type" (responseOf (.unprocessable [("to", "x")])).2
        = none
    ∧ jlookup "error_type"
        (responseOf (.handled (.httpError 400 "e" "d"))).2
        = some (.str "api_error")
    ∧ jlookup "error_type" (validationErrorResponse [("to", "x")]).2
        = some (.str "validation_error") :=
  ⟨rfl,
   (failure_envelope_shapes (.unprocessable [("to", "x")]) rfl).1,
   (failure_envelope_shapes (.unprocessable [("to", "x")]) rfl).2.1 _ rfl,
   (failure_envelope_shapes (.handled (.httpError 400 "e" "d")) rfl).2.2.1
     400 "e" "d" rfl,
   (failure_envelope_shapes (.unprocessable [("to", "x")]) rfl).2.2.2.2
     [("to", "x")]⟩

/-- C10: the 1600-character bound is checked on the raw body string, so any
body longer than 1600 characters is rejected whatever its trimmed length,
and the body a validated message carries into the provider parameters is
the stripped body, not the raw input. -/
theorem body_raw_length_and_trimmed_forwarding :
    (∀ v : String, 1600 < v.length → isOk (validate_body v) = false)
    ∧ (∀ (t b : String) (media : Option String) (m : WhatsAppMessage)
        (wa : String),
        validateMessage (some t) (some b) media = .ok m →
        (buildParams wa m).body = pyStrip b) := by
  constructor
  · intro v h
    rw [isOk_validate_body]
    have hn : ¬ (v.length ≤ 1600) := by omega
    simp [hn]
  · intro t b media m wa h
    show m.body = pyStrip b
    exact validateMessage_ok_body t b media m h

/-- C10 witness: a 1601-character body whose trimmed length is 1 is
rejected, and a validated request with whitespace around the body forwards
the stripped body. -/
theorem body_raw_length_witness :
    isOk (validate_body (String.mk ('a' :: List.replicate 1600 ' '))) = false
    ∧ (buildParams "+14155238886"
        { «to» := "whatsapp:+254716160370", body := "hi",
          media_url := none }).body
      = pyStrip " hi " :=
  ⟨body_raw_length_and_trimmed_forwarding.1 _
     (by
       have h : (String.mk ('a' :: List.replicate 1600 ' ')).length
           = ('a' :: List.replicate 1600 ' ').length := rfl
       rw [h, List.length_cons, List.length_replicate]
       omega),
   body_raw_length_and_trimmed_forwarding.2 "whatsapp:+254716160370" " hi "
     none
     { «to» := "whatsapp:+254716160370", body := "hi", media_url := none }
     "+14155238886" rfl⟩
